import Mathlib

/-!
Verification of the request-governance and authentication layer of the
`project-template` backend.

Shallow embedding conventions:
* Pure Python helpers become Lean functions with the same names where possible.
* Library collaborators (the regex engine of `re.match`, the password hasher,
  the JWT decoder, the Redis key-value store, the HTML cleaner of `bleach`)
  are abstracted as function parameters: the middleware logic is translated
  from the source literally, while those collaborators stay opaque.
* Machine integers are modelled as `Int`/`Nat` (Python integers are unbounded,
  so no wrap-around modelling is needed).
* Python truthiness (`if token:`, `if not data:`) is modelled explicitly:
  an empty string, `None`, zero, and empty containers are falsy.
* Exception control flow becomes `Except` values or explicit branch results.
-/

namespace Backend

/-- An HTTP response as produced by the middlewares: a status code, a body and
a header list (`starlette.Response` with explicitly set headers). -/
structure HttpResponse where
  status : Nat
  body : String
  headers : List (String × String)
deriving Repr, DecidableEq

/-- Result of running one middleware `dispatch` around a downstream handler:
the response sent to the client and whether `call_next` (the downstream
handler) was invoked. -/
structure MWResult where
  response : HttpResponse
  handlerRan : Bool
deriving Repr, DecidableEq

/-! ### Python string helpers -/

/-- Python `str.upper()` restricted to ASCII, which is all the HTTP methods
use (`rule.method.upper() != method.upper()`). -/
def pyUpper (s : String) : String := s.map Char.toUpper

/-- Python `s.startswith(p)` on character lists. -/
def pyStartsWith : List Char → List Char → Bool
  | _, [] => true
  | [], _ :: _ => false
  | c :: cs, p :: ps => c = p && pyStartsWith cs ps

/-- Python `s.split(sep)` for a one-character separator: every occurrence
separates, so adjacent separators produce empty fields. -/
def pySplitChar (sep : Char) : List Char → List (List Char)
  | [] => [[]]
  | c :: rest =>
      let r := pySplitChar sep rest
      if c = sep then [] :: r
      else
        match r with
        | h :: t => (c :: h) :: t
        | [] => [[c]]

/-- Python `s.split(" ")[1]` as used on strings known to contain a space
(they start with `Bearer `). -/
def pySplitSpaceSecond (s : String) : String :=
  String.mk ((pySplitChar ' ' s.data).getD 1 [])

/-- Whitespace accepted by Python `int()` around the digits. -/
def isPySpace (c : Char) : Bool :=
  c = ' ' || c = '\t' || c = '\n' || c = '\r' || c = '\x0b' || c = '\x0c'

/-- Digit-run tail for Python `int()`: after an initial digit, further digits
may be separated by single underscores; a trailing or doubled underscore is an
error. -/
def udigitsGo : Nat → List Char → Option Nat
  | acc, [] => some acc
  | acc, '_' :: c :: rest =>
      if c.isDigit then udigitsGo (acc * 10 + (c.toNat - 48)) rest else none
  | _, ['_'] => none
  | acc, c :: rest =>
      if c.isDigit then udigitsGo (acc * 10 + (c.toNat - 48)) rest else none

/-- A digit run for Python `int()`: must start with a digit. -/
def udigitsFirst : List Char → Option Nat
  | [] => none
  | c :: rest => if c.isDigit then udigitsGo (c.toNat - 48) rest else none

/-- Sign handling of Python `int()`. -/
def pythonIntCore : List Char → Option Int
  | '+' :: rest => (udigitsFirst rest).map Int.ofNat
  | '-' :: rest => (udigitsFirst rest).map (fun n => -(Int.ofNat n : Int))
  | rest => (udigitsFirst rest).map Int.ofNat

/-- Python `int(s)` on a decimal string: optional surrounding whitespace,
optional sign, digits with optional single underscores between them.
(Non-ASCII digits are out of scope.)  `none` models a raised `ValueError`. -/
def pythonInt (s : String) : Option Int :=
  let cs := s.data.dropWhile isPySpace
  let cs := (cs.reverse.dropWhile isPySpace).reverse
  pythonIntCore cs

/-! ### Policy Resolver (timeout and size-limit rule matching)

Source: `middlewares/timeout.py` `TimeoutMiddleware.get_timeout_for_request`
and `middlewares/size_limit.py` `RequestSizeLimitMiddleware.get_limit_for_request`.
The regex engine behind `re.match(rule.path_pattern, path)` is abstracted as a
boolean function `rematch pattern path` (Python `re.match` anchors the pattern
at the start of the path). -/

/-- `config.TimeoutRule`: `path_pattern`, optional `method`, `timeout`. -/
structure TimeoutRule where
  path_pattern : String
  method : Option String
  timeout : Int
deriving Repr, DecidableEq

/-- `config.SizeLimitRule`: `path_pattern`, optional `method`, `limit`. -/
structure SizeLimitRule where
  path_pattern : String
  method : Option String
  limit : Int
deriving Repr, DecidableEq

/-- The skip test `if rule.method and rule.method.upper() != method.upper()`:
a `None` or empty method filter never causes a skip (Python truthiness of the
filter string), otherwise the comparison is case-insensitive. -/
def method_mismatch (filter : Option String) (method : String) : Bool :=
  match filter with
  | none => false
  | some m => (m != "") && (pyUpper m != pyUpper method)

/-- `TimeoutMiddleware.get_timeout_for_request`, translated clause by clause:
iterate the rules in order; skip a rule whose method filter mismatches; return
the first rule whose pattern matches the path; fall back to the default
(`settings.REQUEST_TIMEOUT`). -/
def get_timeout_for_request (rematch : String → String → Bool) :
    List TimeoutRule → Int → String → String → Int
  | [], d, _, _ => d
  | r :: rs, d, path, method =>
      if method_mismatch r.method method then
        get_timeout_for_request rematch rs d path method
      else if rematch r.path_pattern path then r.timeout
      else get_timeout_for_request rematch rs d path method

/-- `RequestSizeLimitMiddleware.get_limit_for_request`, translated clause by
clause; the fallback default is `settings.MAX_UPLOAD_SIZE`. -/
def get_limit_for_request (rematch : String → String → Bool) :
    List SizeLimitRule → Int → String → String → Int
  | [], d, _, _ => d
  | r :: rs, d, path, method =>
      if method_mismatch r.method method then
        get_limit_for_request rematch rs d path method
      else if rematch r.path_pattern path then r.limit
      else get_limit_for_request rematch rs d path method

/-- Spec-side policy rule: a pattern, an optional method filter and a value
(spec section 4.1: the resolution algorithm is shared by both guards). -/
structure PolicyRule (α : Type) where
  path_pattern : String
  method : Option String
  value : α
deriving Repr

/-- Spec-side: a rule matches a request when its method filter (if any)
matches case-insensitively and its anchored pattern matches the path. -/
def policy_rule_matches (rematch : String → String → Bool)
    (path method : String) (r : PolicyRule α) : Bool :=
  !(method_mismatch r.method method) && rematch r.path_pattern path

/-- Modelled from the spec (section 4.1 Policy Resolver): return the value of
the first matching rule, otherwise the configured default. This is the
spec-side definition the two source resolvers are compared against. -/
def resolve_first_match (rematch : String → String → Bool)
    (path method : String) (defaultV : α) : List (PolicyRule α) → α
  | [] => defaultV
  | r :: rs =>
      if policy_rule_matches rematch path method r then r.value
      else resolve_first_match rematch path method defaultV rs

/-- View of a timeout rule as a generic policy rule. -/
def TimeoutRule.toPolicy (r : TimeoutRule) : PolicyRule Int :=
  ⟨r.path_pattern, r.method, r.timeout⟩

/-- View of a size-limit rule as a generic policy rule. -/
def SizeLimitRule.toPolicy (r : SizeLimitRule) : PolicyRule Int :=
  ⟨r.path_pattern, r.method, r.limit⟩

/-! ### Size Guard (`RequestSizeLimitMiddleware.dispatch`) -/

/-- `RequestSizeLimitMiddleware.dispatch`: resolve the limit; with no
`Content-Length` header (or a falsy empty one) pass through; with a header
that parses as an integer above the limit, reject with 413 and the
`X-Max-Content-Length` header; with an unparseable header, log and pass
through (fail open). `contentLength` is the raw header value. -/
def size_limit_dispatch (rematch : String → String → Bool)
    (rules : List SizeLimitRule) (defaultLimit : Int) (request_id : String)
    (path method : String) (contentLength : Option String)
    (handlerResp : HttpResponse) : MWResult :=
  let limit := get_limit_for_request rematch rules defaultLimit path method
  match contentLength with
  | none => ⟨handlerResp, true⟩
  | some s =>
      if s = "" then ⟨handlerResp, true⟩
      else
        match pythonInt s with
        | some n =>
            if n > limit then
              ⟨⟨413, "Request entity too large",
                [("X-Request-ID", request_id),
                 ("X-Max-Content-Length", toString limit)]⟩, false⟩
            else ⟨handlerResp, true⟩
        | none => ⟨handlerResp, true⟩

mutual
/-- A JSON value (the result of `json.loads`). -/
inductive Json where
  | null
  | boolean (b : Bool)
  | number (m : Int) (e : Int)
  | string (s : String)
  /-- `NaN`, `Infinity`, `-Infinity`: accepted by Python `json.loads`. -/
  | nonfinite (neg : Bool) (isNan : Bool)
  | array (xs : JsonArr)
  | object (fs : JsonObj)
deriving Repr, DecidableEq

/-- The elements of a JSON array. -/
inductive JsonArr where
  | nil
  | cons (hd : Json) (tl : JsonArr)
deriving Repr, DecidableEq

/-- The fields of a JSON object. -/
inductive JsonObj where
  | nil
  | cons (key : String) (val : Json) (tl : JsonObj)
deriving Repr, DecidableEq
end

mutual
/-- Spec-side nesting depth of a JSON value: a scalar has depth 0, a
container is one deeper than its deepest child (an empty container has
depth 0: it nests nothing). -/
def jsonMaxDepth : Json → Nat
  | .array xs => jsonMaxDepthArr xs
  | .object fs => jsonMaxDepthObj fs
  | _ => 0

/-- Depth contributed by array elements (each element sits one level down). -/
def jsonMaxDepthArr : JsonArr → Nat
  | .nil => 0
  | .cons h t => max (1 + jsonMaxDepth h) (jsonMaxDepthArr t)

/-- Depth contributed by object fields (each value sits one level down). -/
def jsonMaxDepthObj : JsonObj → Nat
  | .nil => 0
  | .cons _ v t => max (1 + jsonMaxDepth v) (jsonMaxDepthObj t)
end

/-! ### Validation middleware (`RequestValidationMiddleware`) -/

mutual
/-- `RequestValidationMiddleware._validate_json_depth`: entering a node at
`current_depth` greater than `settings.MAX_JSON_DEPTH` raises; dictionaries
and lists recurse into their values at `current_depth + 1`. `true` models a
raised `ValueError("JSON depth limit exceeded")`. -/
def depth_violation (maxd : Nat) : Nat → Json → Bool
  | d, j =>
    if d > maxd then true
    else
      match j with
      | .object fs => depth_violation_obj maxd (d + 1) fs
      | .array xs => depth_violation_arr maxd (d + 1) xs
      | _ => false

/-- The `for item in data` loop of `_validate_json_depth` over a list. -/
def depth_violation_arr (maxd : Nat) : Nat → JsonArr → Bool
  | _, .nil => false
  | d, .cons h t => depth_violation maxd d h || depth_violation_arr maxd d t

/-- The `for value in data.values()` loop of `_validate_json_depth`. -/
def depth_violation_obj (maxd : Nat) : Nat → JsonObj → Bool
  | _, .nil => false
  | d, .cons _ v t => depth_violation maxd d v || depth_violation_obj maxd d t
end

mutual
/-- `RequestValidationMiddleware._sanitize_json_body`: rebuild the tree,
cleaning every string leaf with `bleach.clean` (abstracted as `clean`). -/
def sanitize_json_body (clean : String → String) : Json → Json
  | .object fs => .object (sanitize_json_obj clean fs)
  | .array xs => .array (sanitize_json_arr clean xs)
  | .string s => .string (clean s)
  | j => j

/-- List comprehension of `_sanitize_json_body` on lists. -/
def sanitize_json_arr (clean : String → String) : JsonArr → JsonArr
  | .nil => .nil
  | .cons h t => .cons (sanitize_json_body clean h) (sanitize_json_arr clean t)

/-- Dict comprehension of `_sanitize_json_body` on dictionaries. -/
def sanitize_json_obj (clean : String → String) : JsonObj → JsonObj
  | .nil => .nil
  | .cons k v t =>
      .cons k (sanitize_json_body clean v) (sanitize_json_obj clean t)
end

/-- The body-validation section of `RequestValidationMiddleware.dispatch`
(lines 88-113) after a successful `json.loads`: first
`_validate_json_depth(body_json)` — whose `ValueError` is answered with a 400
response — and only then `_sanitize_json_body(body_json)`; the sanitized body
replaces the original for downstream stages. -/
def process_json_body (clean : String → String) (maxd : Nat) (body : Json) :
    Except HttpResponse Json :=
  if depth_violation maxd 0 body then
    .error ⟨400, "Invalid request body", []⟩
  else .ok (sanitize_json_body clean body)

/-- Outcome of `RequestValidationMiddleware._validate_query_params`. -/
inductive QPOutcome where
  /-- A schema exists for the path and accepted the parameters. -/
  | validated
  /-- A schema exists and `schema(**params)` raised `ValidationError`. -/
  | schemaError
  /-- No schema, strict mode, parameters present: a warning is logged and
  processing continues. -/
  | strictLogged
  /-- No schema and nothing to check: a no-op. -/
  | skipped
deriving Repr, DecidableEq

/-- `RequestValidationMiddleware._validate_query_params`: look the path up in
`ENDPOINT_SCHEMAS`; with a schema, run it (a raised `ValidationError` is
modelled by the abstracted schema returning `false`); with none, strict mode
with parameters present only logs a violation. -/
def validate_query_params
    (schemas : String → Option (List (String × String) → Bool))
    (strict : Bool) (path : String) (params : List (String × String)) :
    QPOutcome :=
  match schemas path with
  | some schema => if schema params then .validated else .schemaError
  | none => if strict && !params.isEmpty then .strictLogged else .skipped

/-- The dict build `for k, v in sanitized_items: sanitized_dict[k] = v`:
later duplicates overwrite earlier ones. -/
def dict_last_wins : List (String × String) → List (String × String)
  | [] => []
  | (k, v) :: rest =>
      if rest.any (fun p => p.1 = k) then dict_last_wins rest
      else (k, v) :: dict_last_wins rest

/-- `RequestValidationMiddleware._sanitize_query_items`: clean each string
value with `bleach.clean` (query parameter values are always strings). -/
def sanitize_query_items (clean : String → String) :
    List (String × String) → List (String × String)
  | [] => []
  | (k, v) :: rest => (k, clean v) :: sanitize_query_items clean rest

/-- The query-parameter section of `RequestValidationMiddleware.dispatch`
(lines 45-70): sanitize the items, build the dict, validate; a
`ValidationError` becomes a 400 response, anything else forwards the request
with the sanitized query string. -/
def validation_query_stage (clean : String → String)
    (schemas : String → Option (List (String × String) → Bool))
    (strict : Bool) (path : String)
    (query_items : List (String × String)) :
    Except HttpResponse (List (String × String)) :=
  let sanitized_items := sanitize_query_items clean query_items
  let sanitized_dict := dict_last_wins sanitized_items
  match validate_query_params schemas strict path sanitized_dict with
  | .schemaError => .error ⟨400, "Invalid request parameters", []⟩
  | _ => .ok sanitized_items

/-- An object chain `{"k": {"k": ... }}` of the given height, for tests. -/
def nestedObj : Nat → Json
  | 0 => .string "leaf"
  | n + 1 => .object (.cons "k" (nestedObj n) .nil)

/-! ### JSON object and truthiness helpers -/

/-- Python dict insertion `d[k] = v` on a JSON object: overwrite the value of
an existing key in place, otherwise append. -/
def jsonObjSet : JsonObj → String → Json → JsonObj
  | .nil, k, v => .cons k v .nil
  | .cons k0 v0 t, k, v =>
      if k0 = k then .cons k0 v t else .cons k0 v0 (jsonObjSet t k v)

/-- Python `dict.get(k)` on a JSON object (`None` when absent). -/
def jsonObjGet : JsonObj → String → Option Json
  | .nil, _ => none
  | .cons k0 v t, k => if k0 = k then some v else jsonObjGet t k

/-- Python truthiness of a JSON value: `None`, `False`, zero, the empty
string and empty containers are falsy (`float("nan")` and infinities are
truthy). -/
def jsonTruthy : Json → Bool
  | .null => false
  | .boolean b => b
  | .number m _ => m != 0
  | .string s => s != ""
  | .nonfinite _ _ => true
  | .array .nil => false
  | .array _ => true
  | .object .nil => false
  | .object _ => true

/-- Python `str()` on a JSON value as it reaches `request.state.user_id`:
exact for the strings and integers that session records and token claims
hold; the representation of containers and floats is abstracted (no claim
inspects those). -/
def pyStr : Json → String
  | .string s => s
  | .number m e => if e = 0 then toString m else toString m ++ "e" ++ toString e
  | .boolean b => if b then "True" else "False"
  | .null => "None"
  | .nonfinite neg isnan =>
      if isnan then "nan" else if neg then "-inf" else "inf"
  | .array _ => "<list>"
  | .object _ => "<dict>"

/-! ### `json.loads` (the deserializer used by the Session Store)

A recursive-descent parser for the JSON grammar as Python `json.loads`
accepts it: the six value forms plus `NaN`/`Infinity`/`-Infinity`, strings
with the standard escapes and no raw control characters, numbers with no
leading zeros or bare signs, and nothing but whitespace after the document.
Recursion is fuelled; `json_loads` supplies fuel larger than any possible
number of parse steps for the input. -/

/-- JSON insignificant whitespace. -/
def skipWs (cs : List Char) : List Char :=
  cs.dropWhile (fun c => c = ' ' || c = '\t' || c = '\n' || c = '\r')

/-- One hexadecimal digit. -/
def parseHexDigit (c : Char) : Option Nat :=
  if c.isDigit then some (c.toNat - 48)
  else if 'a' ≤ c && c ≤ 'f' then some (c.toNat - 87)
  else if 'A' ≤ c && c ≤ 'F' then some (c.toNat - 55)
  else none

/-- Exactly four hexadecimal digits (the `\uXXXX` escape payload). -/
def parse4Hex : List Char → Option (Nat × List Char)
  | a :: b :: c :: d :: rest =>
      match parseHexDigit a, parseHexDigit b, parseHexDigit c,
          parseHexDigit d with
      | some x, some y, some z, some w =>
          some (((x * 16 + y) * 16 + z) * 16 + w, rest)
      | _, _, _, _ => none
  | _ => none

/-- Decimal digits to a natural number. -/
def digitsToNat (ds : List Char) : Nat :=
  ds.foldl (fun a c => a * 10 + (c.toNat - 48)) 0

/-- Mantissa sign for a JSON number literal. -/
def signApply (neg : Bool) (m : Nat) : Int :=
  if neg then -(m : Int) else (m : Int)

/-- Exponent suffix of a JSON number: `e`/`E`, optional sign, digits. The
parsed value `m * 10 ^ e` is exact (Python converts to IEEE floats, an
abstraction no claim depends on). -/
def parseExpPart (neg : Bool) (mant : Nat) (fracLen : Nat)
    (cs : List Char) : Option (Json × List Char) :=
  match cs with
  | 'e' :: r | 'E' :: r =>
      let (esign, r1) : Int × List Char :=
        match r with
        | '+' :: rr => (1, rr)
        | '-' :: rr => (-1, rr)
        | _ => (1, r)
      let (eds, r2) := r1.span (fun c => c.isDigit)
      if eds.isEmpty then none
      else
        some (.number (signApply neg mant)
          (esign * (digitsToNat eds : Int) - (fracLen : Int)), r2)
  | _ => some (.number (signApply neg mant) (0 - (fracLen : Int)), cs)

/-- A JSON number literal: optional `-`, an integer part with no leading
zero, an optional fraction, an optional exponent. -/
def parseNumber (cs : List Char) : Option (Json × List Char) :=
  let (neg, cs1) : Bool × List Char :=
    match cs with
    | '-' :: r => (true, r)
    | _ => (false, cs)
  match cs1 with
  | [] => none
  | c :: _ =>
      if !c.isDigit then none
      else
        let (ds, rest) := cs1.span (fun ch => ch.isDigit)
        if ds.head? = some '0' && ds.length > 1 then none
        else
          match rest with
          | '.' :: r2 =>
              let (fs, r3) := r2.span (fun ch => ch.isDigit)
              if fs.isEmpty then none
              else
                parseExpPart neg
                  (digitsToNat ds * 10 ^ fs.length + digitsToNat fs)
                  fs.length r3
          | _ => parseExpPart neg (digitsToNat ds) 0 rest

mutual
/-- A JSON value: leading whitespace, then one of the literal forms, a
string, an array, an object or a number. Returns the value and the
unconsumed suffix. -/
def parseValue : Nat → List Char → Option (Json × List Char)
  | 0, _ => none
  | f + 1, cs =>
      let cs := skipWs cs
      match cs with
      | 'n' :: 'u' :: 'l' :: 'l' :: rest => some (.null, rest)
      | 't' :: 'r' :: 'u' :: 'e' :: rest => some (.boolean true, rest)
      | 'f' :: 'a' :: 'l' :: 's' :: 'e' :: rest => some (.boolean false, rest)
      | 'N' :: 'a' :: 'N' :: rest => some (.nonfinite false true, rest)
      | 'I' :: 'n' :: 'f' :: 'i' :: 'n' :: 'i' :: 't' :: 'y' :: rest =>
          some (.nonfinite false false, rest)
      | '-' :: 'I' :: 'n' :: 'f' :: 'i' :: 'n' :: 'i' :: 't' :: 'y' ::
          rest => some (.nonfinite true false, rest)
      | '"' :: rest =>
          match parseStrBody f [] rest with
          | some (s, r) => some (.string s, r)
          | none => none
      | '[' :: rest =>
          match skipWs rest with
          | ']' :: r2 => some (.array .nil, r2)
          | _ =>
              match parseArrItems f rest with
              | some (xs, r2) => some (.array xs, r2)
              | none => none
      | '{' :: rest =>
          match skipWs rest with
          | '}' :: r2 => some (.object .nil, r2)
          | _ =>
              match parseObjItems f .nil rest with
              | some (fs, r2) => some (.object fs, r2)
              | none => none
      | _ => parseNumber cs

/-- The body of a JSON string after the opening quote: literal characters
(no raw control characters) and backslash escapes, up to the closing quote.
A `\uXXXX` escape outside the scalar range degrades to the null character
(Python keeps lone surrogates; no claim depends on such strings). -/
def parseStrBody : Nat → List Char → List Char →
    Option (String × List Char)
  | 0, _, _ => none
  | _ + 1, _, [] => none
  | _ + 1, acc, '"' :: rest => some (String.mk acc.reverse, rest)
  | f + 1, acc, '\\' :: e :: rest =>
      match e with
      | '"' => parseStrBody f ('"' :: acc) rest
      | '\\' => parseStrBody f ('\\' :: acc) rest
      | '/' => parseStrBody f ('/' :: acc) rest
      | 'b' => parseStrBody f ('\x08' :: acc) rest
      | 'f' => parseStrBody f ('\x0c' :: acc) rest
      | 'n' => parseStrBody f ('\n' :: acc) rest
      | 'r' => parseStrBody f ('\r' :: acc) rest
      | 't' => parseStrBody f ('\t' :: acc) rest
      | 'u' =>
          match parse4Hex rest with
          | some (n, r2) => parseStrBody f (Char.ofNat n :: acc) r2
          | none => none
      | _ => none
  | f + 1, acc, c :: rest =>
      if c.toNat < 32 then none else parseStrBody f (c :: acc) rest

/-- One or more comma-separated array elements followed by `]`. -/
def parseArrItems : Nat → List Char → Option (JsonArr × List Char)
  | 0, _ => none
  | f + 1, cs =>
      match parseValue f cs with
      | none => none
      | some (v, rest) =>
          match skipWs rest with
          | ',' :: r2 =>
              match parseArrItems f r2 with
              | some (tl, r3) => some (.cons v tl, r3)
              | none => none
          | ']' :: r2 => some (.cons v .nil, r2)
          | _ => none

/-- One or more `"key": value` object members followed by a closing brace;
members accumulate by dict insertion, so a duplicate key keeps the later
value, as in Python. -/
def parseObjItems : Nat → JsonObj → List Char →
    Option (JsonObj × List Char)
  | 0, _, _ => none
  | f + 1, acc, cs =>
      match skipWs cs with
      | '"' :: rest =>
          match parseStrBody f [] rest with
          | none => none
          | some (k, r2) =>
              match skipWs r2 with
              | ':' :: r3 =>
                  match parseValue f r3 with
                  | none => none
                  | some (v, r4) =>
                      let acc2 := jsonObjSet acc k v
                      match skipWs r4 with
                      | ',' :: r5 => parseObjItems f acc2 r5
                      | '}' :: r5 => some (acc2, r5)
                      | _ => none
              | _ => none
      | _ => none
end

/-- Python `json.loads`: parse one JSON document; only whitespace may follow
it. `none` models a raised `json.JSONDecodeError` (a `ValueError`). -/
def json_loads (s : String) : Option Json :=
  match parseValue (8 * s.length + 64) s.data with
  | some (v, rest) => if (skipWs rest).isEmpty then some v else none
  | none => none

/-! ### Session Store (`security/session_manager.py`) -/

/-- `SessionManager.get_session`: a falsy (empty) session id reads as
absence; a missing or falsy (empty) stored value reads as absence; otherwise
the stored bytes are handed to `json.loads`, whose `JSONDecodeError` on
malformed data propagates out of `get_session` (modelled as `.error`). The
Redis client is the map `store` from keys to stored strings. -/
def get_session (store : String → Option String) (session_id : String) :
    Except String (Option Json) :=
  if session_id = "" then .ok none
  else
    match store ("session:" ++ session_id) with
    | none => .ok none
    | some data =>
        if data = "" then .ok none
        else
          match json_loads data with
          | some j => .ok (some j)
          | none => .error "JSONDecodeError"

/-! ### Auth Resolver (`middlewares/auth.py` `UserContextMiddleware`)

The JWT library call
`jwt.decode(token, settings.SECRET_KEY, algorithms=[settings.ALGORITHM])` is
abstracted as a function from the token string to one of its four outcomes;
the Redis client behind the session fallback is the same string-keyed store
used by `get_session`. -/

/-- Outcome of `jose.jwt.decode` on a token. -/
inductive DecodeResult where
  /-- Signature and expiry verified; the claim payload. -/
  | ok (payload : JsonObj)
  /-- `ExpiredSignatureError`. -/
  | expired
  /-- Any other `JWTError` (bad signature, malformed token). -/
  | invalid
  /-- Any non-JWT exception from the decode block. -/
  | failure
deriving Repr, DecidableEq

/-- The parts of the request the middleware reads. -/
structure AuthRequest where
  /-- The `Authorization` header, when present. -/
  authorization : Option String
  /-- The request cookies. -/
  cookies : List (String × String)
deriving Repr, DecidableEq

/-- Python `request.cookies.get(name)`. -/
def cookie_get (cookies : List (String × String)) (name : String) :
    Option String :=
  (cookies.find? (fun p => p.1 = name)).map (fun p => p.2)

/-- The request-scoped identity context the middleware populates
(`request.state`). -/
structure AuthState where
  authenticated : Bool
  user_id : Option Json
  user : Option Json
  token_expiring_soon : Bool
deriving Repr, DecidableEq

/-- The initial state set in lines 27-29: unauthenticated, no user. -/
def initialAuthState : AuthState := ⟨false, none, none, false⟩

/-- Result of `UserContextMiddleware.dispatch`: the response, the final
request state, whether `call_next` ran, and whether the session store was
queried. -/
structure AuthDispatchResult where
  response : HttpResponse
  state : AuthState
  handlerRan : Bool
  sessionChecked : Bool
deriving Repr, DecidableEq

/-- The cookie fallback of token extraction (lines 36-41): take
`access_token` when the cookie exists, stripping a possible `Bearer `
prefix from a truthy value. -/
def extract_cookie_token (req : AuthRequest) : Option String :=
  match cookie_get req.cookies "access_token" with
  | some t =>
      if t != "" && pyStartsWith t.data "Bearer ".data then
        some (pySplitSpaceSecond t)
      else some t
  | none => none

/-- Token extraction (lines 31-41): a truthy `Authorization` header starting
with `Bearer ` wins; otherwise the `access_token` cookie. -/
def extract_token (req : AuthRequest) : Option String :=
  match req.authorization with
  | some h =>
      if h != "" && pyStartsWith h.data "Bearer ".data then
        some (pySplitSpaceSecond h)
      else extract_cookie_token req
  | none => extract_cookie_token req

/-- The refresh-hint computation of lines 59-63: with a truthy integer `exp`
claim closer than `REFRESH_HINT_WINDOW_SECONDS` to `now`, mark the token as
expiring soon. (`exp` claims are integers, so their decimal exponent is 0;
a non-numeric `exp` raises and the raised `TypeError` is swallowed by the
`except Exception` arm with the state left as already set, which is the same
observable outcome as skipping the hint.) -/
def token_expiring_hint (now refreshWindow : Int) (expClaim : Option Json) :
    Bool :=
  match expClaim with
  | some (.number m e) =>
      (m != 0) && decide (m * 10 ^ e.toNat - now < refreshWindow)
  | _ => false

/-- The JWT section of `UserContextMiddleware.dispatch` (lines 43-76) once a
truthy token was extracted: `ExpiredSignatureError` and `JWTError` answer
401 immediately; any other exception leaves the request unauthenticated; a
decoded payload with a truthy `sub` authenticates the request. -/
def token_phase (decode : String → DecodeResult) (now refreshWindow : Int)
    (t : String) : Except HttpResponse AuthState :=
  match decode t with
  | .expired => .error ⟨401, "Token expired", []⟩
  | .invalid => .error ⟨401, "Invalid token", []⟩
  | .failure => .ok initialAuthState
  | .ok payload =>
      match jsonObjGet payload "sub" with
      | some u =>
          if jsonTruthy u then
            .ok ⟨true, some u,
              some (.object (.cons "username" u .nil)),
              token_expiring_hint now refreshWindow
                (jsonObjGet payload "exp")⟩
          else .ok initialAuthState
      | none => .ok initialAuthState

/-- The Redis-session fallback of `UserContextMiddleware.dispatch`
(lines 78-105): only for a still-unauthenticated request with a truthy
`session_id` cookie; any exception from the lookup (including the
deserialization error of `get_session` and the attribute error of `.get` on
a non-dict record) is swallowed. Returns the state and whether the session
store was queried. -/
def session_phase (store : String → Option String) (req : AuthRequest)
    (st : AuthState) : AuthState × Bool :=
  if st.authenticated then (st, false)
  else
    match cookie_get req.cookies "session_id" with
    | none => (st, false)
    | some sid =>
        if sid = "" then (st, false)
        else
          match get_session store sid with
          | .error _ => (st, true)
          | .ok none => (st, true)
          | .ok (some sdata) =>
              if jsonTruthy sdata then
                match sdata with
                | .object fs =>
                    match jsonObjGet fs "user_id" with
                    | some u =>
                        if jsonTruthy u then
                          (⟨true, some (.string (pyStr u)),
                            some (.object (.cons "id" u
                              (.cons "email"
                                ((jsonObjGet fs "email").getD .null) .nil))),
                            st.token_expiring_soon⟩, true)
                        else (st, true)
                    | none => (st, true)
                | _ => (st, true)
              else (st, true)

/-- `UserContextMiddleware.dispatch`: initialize the state, extract a token,
run the JWT section (whose 401s return before the session lookup and before
`call_next`), fall back to the session cookie, call the handler, and append
the `X-Token-Expiring-Soon` header when flagged. -/
def user_context_dispatch (decode : String → DecodeResult)
    (store : String → Option String) (now refreshWindow : Int)
    (req : AuthRequest) (handlerResp : HttpResponse) : AuthDispatchResult :=
  let afterToken : Except HttpResponse AuthState :=
    match extract_token req with
    | some t =>
        if t = "" then .ok initialAuthState
        else token_phase decode now refreshWindow t
    | none => .ok initialAuthState
  match afterToken with
  | .error resp => ⟨resp, initialAuthState, false, false⟩
  | .ok st1 =>
      let (st2, schecked) := session_phase store req st1
      let resp :=
        if st2.authenticated && st2.token_expiring_soon then
          { handlerResp with
            headers := handlerResp.headers ++
              [("X-Token-Expiring-Soon", "true")] }
        else handlerResp
      ⟨resp, st2, true, schecked⟩

/-! ### Auth service (`services/auth_service.py`)

The password hasher (`verify_password`, passlib bcrypt) is abstracted as a
boolean function; the SQLAlchemy session is modelled as in-memory lists with
the unique-column lookups (`scalar_one_or_none` on unique `email`,
`(provider, sub)`) as first-match searches. The model is sequential: the
`IntegrityError` branch for a concurrent duplicate insert does not arise. -/

/-- A `database.models.User` row: unique email and an optional password
hash (absent for social-login users). -/
structure DBUser where
  id : Nat
  email : String
  password_hash : Option String
deriving Repr, DecidableEq

/-- A `database.models.OAuthAccount` row linking a (provider, subject) pair
to a user. -/
structure OAuthAccountRec where
  user_id : Nat
  provider : String
  sub : String
  email : String
deriving Repr, DecidableEq

/-- The persistent store as `get_or_create_user_via_social` sees it, plus
the id the next inserted user receives. -/
structure SocialDB where
  users : List DBUser
  accounts : List OAuthAccountRec
  next_user_id : Nat
deriving Repr, DecidableEq

/-- `auth_service.authenticate_user`: look the user up by email; no user,
an absent password hash (social-login account), or a failing password
verification each yield `None`; otherwise the user. -/
def authenticate_user (verify : String → String → Bool) (db : List DBUser)
    (email password : String) : Option DBUser :=
  match db.find? (fun u => u.email == email) with
  | none => none
  | some user =>
      match user.password_hash with
      | none => none
      | some h => if verify password h then some user else none

/-- `auth_service.get_or_create_user_via_social`: (1) an existing
(provider, sub) account returns its user (`scalar_one` on a dangling
`user_id` raises, surfacing as an internal error, modelled `.error 500`);
(2) otherwise, guarded by the truthiness check `if email:` (a `None` or
empty email skips this branch), a provider email matching an existing user
links a new account to that user; (3) otherwise `if not email:` raises 400
for a `None` or empty email, and a fresh truthy email creates a new
password-less user with its account. -/
def get_or_create_user_via_social (db : SocialDB) (provider sub : String)
    (email : Option String) : Except Nat (DBUser × SocialDB) :=
  match db.accounts.find?
      (fun a => a.provider == provider && a.sub == sub) with
  | some acc =>
      match db.users.find? (fun u => u.id == acc.user_id) with
      | some u => .ok (u, db)
      | none => .error 500
  | none =>
      match email with
      | some e =>
          if e = "" then .error 400
          else
            match db.users.find? (fun u => u.email == e) with
            | some existing_user =>
                .ok (existing_user,
                  { db with accounts :=
                      db.accounts ++ [⟨existing_user.id, provider, sub, e⟩] })
            | none =>
                let new_user : DBUser := ⟨db.next_user_id, e, none⟩
                .ok (new_user,
                  { users := db.users ++ [new_user],
                    accounts :=
                      db.accounts ++ [⟨new_user.id, provider, sub, e⟩],
                    next_user_id := db.next_user_id + 1 })
      | none => .error 400

/-! ### Theorems: C4 and C5 -/

/-- C4: for every path, method and ordered rule list, policy resolution
returns the value of the first rule whose optional method filter matches the
method case-insensitively and whose anchored pattern matches the path, and
the configured default when no rule matches; both the timeout resolver and
the size-limit resolver are literally this one first-match algorithm (both
equal `resolve_first_match` on the corresponding generic rule list), and both
are total deterministic Lean functions. -/
theorem policy_resolver_first_match_C4
    (rematch : String → String → Bool) (path method : String)
    (trules : List TimeoutRule) (tdefault : Int)
    (srules : List SizeLimitRule) (sdefault : Int) :
    get_timeout_for_request rematch trules tdefault path method =
      resolve_first_match rematch path method tdefault
        (trules.map TimeoutRule.toPolicy) ∧
    get_limit_for_request rematch srules sdefault path method =
      resolve_first_match rematch path method sdefault
        (srules.map SizeLimitRule.toPolicy) := by
  constructor
  · induction trules with
    | nil => rfl
    | cons r rs ih =>
        simp only [get_timeout_for_request, List.map, resolve_first_match,
          policy_rule_matches, TimeoutRule.toPolicy, Bool.and_eq_true,
          Bool.not_eq_true']
        by_cases hm : method_mismatch r.method method
        · simp [hm, ih]
        · by_cases hp : rematch r.path_pattern path
          · simp [hm, hp]
          · simp [hm, hp, ih]
  · induction srules with
    | nil => rfl
    | cons r rs ih =>
        simp only [get_limit_for_request, List.map, resolve_first_match,
          policy_rule_matches, SizeLimitRule.toPolicy, Bool.and_eq_true,
          Bool.not_eq_true']
        by_cases hm : method_mismatch r.method method
        · simp [hm, ih]
        · by_cases hp : rematch r.path_pattern path
          · simp [hm, hp]
          · simp [hm, hp, ih]

/-- C5: the Size Guard passes requests with no `Content-Length` header
through to the handler; rejects a request whose header parses to an integer
above the resolved limit with status 413, an `X-Max-Content-Length` header
equal to the resolved limit, and no handler invocation; and fails open
(handler still runs, response untouched) when the header does not parse as an
integer. -/
theorem size_guard_dispatch_C5
    (rematch : String → String → Bool) (rules : List SizeLimitRule)
    (defaultLimit : Int) (request_id path method : String)
    (contentLength : Option String) (handlerResp : HttpResponse) :
    (contentLength = none →
      size_limit_dispatch rematch rules defaultLimit request_id path method
        contentLength handlerResp = ⟨handlerResp, true⟩) ∧
    (∀ s n, contentLength = some s → pythonInt s = some n →
      n > get_limit_for_request rematch rules defaultLimit path method →
      size_limit_dispatch rematch rules defaultLimit request_id path method
        contentLength handlerResp =
      ⟨⟨413, "Request entity too large",
        [("X-Request-ID", request_id),
         ("X-Max-Content-Length",
          toString (get_limit_for_request rematch rules defaultLimit path
            method))]⟩, false⟩) ∧
    (∀ s, contentLength = some s → pythonInt s = none →
      size_limit_dispatch rematch rules defaultLimit request_id path method
        contentLength handlerResp = ⟨handlerResp, true⟩) := by
  refine ⟨fun h => by simp [size_limit_dispatch, h], ?_, ?_⟩
  · intro s n hs hn hgt
    subst hs
    have hne : s ≠ "" := by
      intro he; subst he
      simp [pythonInt, pythonIntCore, udigitsFirst] at hn
    simp [size_limit_dispatch, hne, hn, hgt]
  · intro s hs hn
    subst hs
    by_cases hne : s = ""
    · simp [size_limit_dispatch, hne]
    · simp [size_limit_dispatch, hne, hn]

/-- Witness for C5 at concrete inputs: a missing header passes through, a
`Content-Length` of `"11"` against a resolved limit of `10` is rejected with
413 and the limit header, and an unparseable `"abc"` header fails open. -/
theorem size_guard_dispatch_C5_witness :
    size_limit_dispatch (fun _ _ => false) [] 10 "rid" "/p" "POST" none
      ⟨200, "ok", []⟩ = ⟨⟨200, "ok", []⟩, true⟩ ∧
    size_limit_dispatch (fun _ _ => false) [] 10 "rid" "/p" "POST"
      (some "11") ⟨200, "ok", []⟩ =
      ⟨⟨413, "Request entity too large",
        [("X-Request-ID", "rid"), ("X-Max-Content-Length", "10")]⟩, false⟩ ∧
    size_limit_dispatch (fun _ _ => false) [] 10 "rid" "/p" "POST"
      (some "abc") ⟨200, "ok", []⟩ = ⟨⟨200, "ok", []⟩, true⟩ := by
  refine ⟨?_, ?_, ?_⟩
  · exact (size_guard_dispatch_C5 (fun _ _ => false) [] 10 "rid" "/p" "POST"
      none ⟨200, "ok", []⟩).1 rfl
  · have h := (size_guard_dispatch_C5 (fun _ _ => false) [] 10 "rid" "/p"
      "POST" (some "11") ⟨200, "ok", []⟩).2.1 "11" 11 rfl (by decide)
      (by decide)
    simpa using h
  · exact (size_guard_dispatch_C5 (fun _ _ => false) [] 10 "rid" "/p" "POST"
      (some "abc") ⟨200, "ok", []⟩).2.2 "abc" rfl (by decide)

/-! ### JSON values

The request bodies and Redis session records are JSON. Numbers are modelled
as exact decimals `m * 10 ^ e` (every JSON number literal is one); Python
converts them to IEEE floats, an abstraction no claim depends on. -/

/-! ### Theorems: C6 and C7 -/

/-- C6 counterexample: with strict mode enabled, no schema entry for the path
and a query parameter present, the Validation Gate does not reject: the
concrete request with parameters `foo=bar` on the schema-less path `/x` is
forwarded (the stage returns the sanitized items, never a failure response),
contradicting the claim that it fails the request. -/
theorem validation_strict_no_schema_C6_counterexample :
    validation_query_stage id (fun _ => none) true "/x" [("foo", "bar")] =
      .ok [("foo", "bar")] ∧
    validate_query_params (fun _ => none) true "/x" [("foo", "bar")] =
      .strictLogged ∧
    ∀ r, validation_query_stage id (fun _ => none) true "/x"
      [("foo", "bar")] ≠ .error r := by
  refine ⟨rfl, rfl, ?_⟩
  intro r h
  simp [validation_query_stage, sanitize_query_items, dict_last_wins,
    validate_query_params] at h

/-- C6 amended: for every request whose path has no entry in the
endpoint-schema map, the Validation Gate never rejects; with strict mode
enabled and parameters present it logs a strict-mode violation and still
forwards the request (with sanitized parameters) to the handler. -/
theorem validation_strict_no_schema_C6 (clean : String → String)
    (schemas : String → Option (List (String × String) → Bool))
    (strict : Bool) (path : String) (query_items : List (String × String))
    (hnone : schemas path = none) :
    validation_query_stage clean schemas strict path query_items =
      .ok (sanitize_query_items clean query_items) ∧
    (strict = true →
      (dict_last_wins (sanitize_query_items clean query_items)).isEmpty =
        false →
      validate_query_params schemas strict path
        (dict_last_wins (sanitize_query_items clean query_items)) =
        .strictLogged) := by
  constructor
  · unfold validation_query_stage validate_query_params
    rw [hnone]
    by_cases h : strict && !(dict_last_wins
        (sanitize_query_items clean query_items)).isEmpty
    · simp [h]
    · simp [h]
  · intro hs hne
    unfold validate_query_params
    rw [hnone, hs, hne]
    rfl

/-- Witness for C6 amended at a concrete input: strict mode, no schema for
`/x`, one parameter — forwarded with a logged violation. -/
theorem validation_strict_no_schema_C6_witness :
    validation_query_stage id (fun _ => none) true "/x" [("a", "b")] =
      .ok [("a", "b")] ∧
    validate_query_params (fun _ => none) true "/x"
      (dict_last_wins (sanitize_query_items id [("a", "b")])) =
      .strictLogged := by
  have h := validation_strict_no_schema_C6 id (fun _ => none) true "/x"
    [("a", "b")] rfl
  exact ⟨h.1, h.2 rfl rfl⟩

mutual
/-- A node entered above the depth limit, or any of its children, trips
`_validate_json_depth`: if the remaining tree below depth `d` reaches past
`maxd`, the check raises. -/
theorem depth_violation_of_deep (maxd d : Nat) (j : Json)
    (h : maxd < d + jsonMaxDepth j) : depth_violation maxd d j = true := by
  cases j with
  | null =>
      simp only [jsonMaxDepth] at h
      have hgt : d > maxd := by omega
      rw [depth_violation] <;> simp [hgt]
  | boolean b =>
      simp only [jsonMaxDepth] at h
      have hgt : d > maxd := by omega
      rw [depth_violation] <;> simp [hgt]
  | number m e =>
      simp only [jsonMaxDepth] at h
      have hgt : d > maxd := by omega
      rw [depth_violation] <;> simp [hgt]
  | string s =>
      simp only [jsonMaxDepth] at h
      have hgt : d > maxd := by omega
      rw [depth_violation] <;> simp [hgt]
  | nonfinite neg isnan =>
      simp only [jsonMaxDepth] at h
      have hgt : d > maxd := by omega
      rw [depth_violation] <;> simp [hgt]
  | array xs =>
      rw [depth_violation]
      by_cases hle : d > maxd
      · simp [hle]
      · rw [if_neg hle]
        exact depth_violation_arr_of_deep maxd d xs (by omega)
          (by simpa [jsonMaxDepth] using h)
  | object fs =>
      rw [depth_violation]
      by_cases hle : d > maxd
      · simp [hle]
      · rw [if_neg hle]
        exact depth_violation_obj_of_deep maxd d fs (by omega)
          (by simpa [jsonMaxDepth] using h)

/-- Array case of `depth_violation_of_deep`: the elements sit at `dp + 1`. -/
theorem depth_violation_arr_of_deep (maxd dp : Nat) (xs : JsonArr)
    (hdp : dp ≤ maxd) (h : maxd < dp + jsonMaxDepthArr xs) :
    depth_violation_arr maxd (dp + 1) xs = true := by
  cases xs with
  | nil => exfalso; simp [jsonMaxDepthArr] at h; omega
  | cons hj tl =>
      simp only [jsonMaxDepthArr] at h
      rw [depth_violation_arr]
      rcases Nat.lt_or_ge maxd (dp + (1 + jsonMaxDepth hj)) with h1 | h1
      · have hx := depth_violation_of_deep maxd (dp + 1) hj (by omega)
        simp [hx]
      · have hx := depth_violation_arr_of_deep maxd dp tl hdp (by omega)
        simp [hx]

/-- Object case of `depth_violation_of_deep`: the values sit at `dp + 1`. -/
theorem depth_violation_obj_of_deep (maxd dp : Nat) (fs : JsonObj)
    (hdp : dp ≤ maxd) (h : maxd < dp + jsonMaxDepthObj fs) :
    depth_violation_obj maxd (dp + 1) fs = true := by
  cases fs with
  | nil => exfalso; simp [jsonMaxDepthObj] at h; omega
  | cons k v tl =>
      simp only [jsonMaxDepthObj] at h
      rw [depth_violation_obj]
      rcases Nat.lt_or_ge maxd (dp + (1 + jsonMaxDepth v)) with h1 | h1
      · have hx := depth_violation_of_deep maxd (dp + 1) v (by omega)
        simp [hx]
      · have hx := depth_violation_obj_of_deep maxd dp tl hdp (by omega)
        simp [hx]
end

/-- C7: every JSON body whose nesting depth exceeds the configured maximum is
rejected with a 400 response, and the depth check runs before any recursive
sanitization: the rejection is independent of the sanitizer (the result is
the same for every cleaning function, so no sanitization work is observable). -/
theorem json_depth_rejected_C7 (clean clean' : String → String) (maxd : Nat)
    (body : Json) (h : maxd < jsonMaxDepth body) :
    process_json_body clean maxd body =
      .error ⟨400, "Invalid request body", []⟩ ∧
    process_json_body clean maxd body = process_json_body clean' maxd body := by
  have hv : depth_violation maxd 0 body = true :=
    depth_violation_of_deep maxd 0 body (by omega)
  constructor
  · simp [process_json_body, hv]
  · simp [process_json_body, hv]

/-- Witness for C7 at the default configuration: an 11-level nested object
against `MAX_JSON_DEPTH = 10` is rejected with 400 for any sanitizer. -/
theorem json_depth_rejected_C7_witness :
    process_json_body id 10 (nestedObj 11) =
      .error ⟨400, "Invalid request body", []⟩ ∧
    process_json_body id 10 (nestedObj 11) =
      process_json_body (fun _ => "x") 10 (nestedObj 11) := by
  have h : (10 : Nat) < jsonMaxDepth (nestedObj 11) := by
    show 10 < jsonMaxDepth (nestedObj 11)
    norm_num [nestedObj, jsonMaxDepth, jsonMaxDepthObj]
  exact json_depth_rejected_C7 id (fun _ => "x") 10 (nestedObj 11) h

/-! ### Theorems: C1, C2, C3 (Auth Resolver) -/

/-- C3: a request presenting an expired or malformed (JWT-error) bearer or
cookie token is answered with a 401 immediately: the downstream handler
never runs and the session store is never consulted. -/
theorem auth_shortcircuit_C3 (decode : String → DecodeResult)
    (store : String → Option String) (now refreshWindow : Int)
    (req : AuthRequest) (handlerResp : HttpResponse) (t : String)
    (ht : extract_token req = some t) (hne : t ≠ "")
    (hdec : decode t = DecodeResult.expired ∨
      decode t = DecodeResult.invalid) :
    (user_context_dispatch decode store now refreshWindow req
      handlerResp).response.status = 401 ∧
    (user_context_dispatch decode store now refreshWindow req
      handlerResp).handlerRan = false ∧
    (user_context_dispatch decode store now refreshWindow req
      handlerResp).sessionChecked = false := by
  unfold user_context_dispatch
  rw [ht]
  rcases hdec with h | h <;> simp [hne, token_phase, h]

/-- Witness for C3: a concrete request whose bearer token decodes as expired
is rejected 401 with no handler run and no session lookup. -/
theorem auth_shortcircuit_C3_witness :
    (user_context_dispatch (fun _ => .expired) (fun _ => none) 0 300
      ⟨some "Bearer t", []⟩ ⟨200, "ok", []⟩).response.status = 401 ∧
    (user_context_dispatch (fun _ => .expired) (fun _ => none) 0 300
      ⟨some "Bearer t", []⟩ ⟨200, "ok", []⟩).handlerRan = false ∧
    (user_context_dispatch (fun _ => .expired) (fun _ => none) 0 300
      ⟨some "Bearer t", []⟩ ⟨200, "ok", []⟩).sessionChecked = false :=
  auth_shortcircuit_C3 (fun _ => .expired) (fun _ => none) 0 300
    ⟨some "Bearer t", []⟩ ⟨200, "ok", []⟩ "t" (by decide) (by decide)
    (Or.inl rfl)

/-- C1 counterexample: the Auth Resolver performs no revocation lookup. With
the key-value store holding a revocation mark for the token's unique id
`j1`, a token that decodes successfully with that `jti` still authenticates
and reaches the handler with its 200 response, while an invalid-signature
token gets 401 — a revoked token does not fail, let alone fail identically
to an invalid signature. -/
theorem auth_revocation_C1_counterexample :
    ((fun k => if k = "revoked_jti:j1" then some "1" else none) :
      String → Option String) "revoked_jti:j1" = some "1" ∧
    (user_context_dispatch
      (fun _ => .ok (.cons "sub" (.string "alice")
        (.cons "jti" (.string "j1") .nil)))
      (fun k => if k = "revoked_jti:j1" then some "1" else none) 0 300
      ⟨some "Bearer tok", []⟩ ⟨200, "ok", []⟩).response.status = 200 ∧
    (user_context_dispatch
      (fun _ => .ok (.cons "sub" (.string "alice")
        (.cons "jti" (.string "j1") .nil)))
      (fun k => if k = "revoked_jti:j1" then some "1" else none) 0 300
      ⟨some "Bearer tok", []⟩ ⟨200, "ok", []⟩).state.authenticated = true ∧
    (user_context_dispatch
      (fun _ => .ok (.cons "sub" (.string "alice")
        (.cons "jti" (.string "j1") .nil)))
      (fun k => if k = "revoked_jti:j1" then some "1" else none) 0 300
      ⟨some "Bearer tok", []⟩ ⟨200, "ok", []⟩).handlerRan = true ∧
    (user_context_dispatch (fun _ => .invalid)
      (fun k => if k = "revoked_jti:j1" then some "1" else none) 0 300
      ⟨some "Bearer tok", []⟩ ⟨200, "ok", []⟩).response.status = 401 :=
  ⟨rfl, by decide, by decide, by decide, by decide⟩

/-- C1 amended: the Auth Resolver never checks the revocation store. Every
token that decodes successfully with a truthy `sub` claim authenticates the
request and the handler runs; the result is moreover identical for any two
key-value stores, so no revocation entry anywhere in the store can influence
identity resolution. -/
theorem auth_no_revocation_check_C1 (decode : String → DecodeResult)
    (store store2 : String → Option String) (now refreshWindow : Int)
    (req : AuthRequest) (handlerResp : HttpResponse) (t : String)
    (payload : JsonObj) (u : Json)
    (ht : extract_token req = some t) (hne : t ≠ "")
    (hdec : decode t = DecodeResult.ok payload)
    (hsub : jsonObjGet payload "sub" = some u)
    (hut : jsonTruthy u = true) :
    (user_context_dispatch decode store now refreshWindow req
      handlerResp).state.authenticated = true ∧
    (user_context_dispatch decode store now refreshWindow req
      handlerResp).handlerRan = true ∧
    (user_context_dispatch decode store now refreshWindow req
      handlerResp).sessionChecked = false ∧
    user_context_dispatch decode store now refreshWindow req handlerResp =
      user_context_dispatch decode store2 now refreshWindow req
        handlerResp := by
  unfold user_context_dispatch
  rw [ht]
  simp [hne, token_phase, hdec, hsub, hut, session_phase]

/-- Witness for C1 amended: a concrete decoded token with `sub = "alice"`
authenticates against two different stores (one holding a revocation mark)
with the same result. -/
theorem auth_no_revocation_check_C1_witness :
    (user_context_dispatch
      (fun _ => .ok (.cons "sub" (.string "alice") .nil))
      (fun _ => none) 0 300 ⟨some "Bearer tok", []⟩
      ⟨200, "ok", []⟩).state.authenticated = true ∧
    user_context_dispatch
      (fun _ => .ok (.cons "sub" (.string "alice") .nil))
      (fun _ => none) 0 300 ⟨some "Bearer tok", []⟩ ⟨200, "ok", []⟩ =
    user_context_dispatch
      (fun _ => .ok (.cons "sub" (.string "alice") .nil))
      (fun _ => some "revoked") 0 300 ⟨some "Bearer tok", []⟩
      ⟨200, "ok", []⟩ := by
  have h := auth_no_revocation_check_C1
    (fun _ => .ok (.cons "sub" (.string "alice") .nil))
    (fun _ => none) (fun _ => some "revoked") 0 300
    ⟨some "Bearer tok", []⟩ ⟨200, "ok", []⟩ "tok"
    (.cons "sub" (.string "alice") .nil) (.string "alice")
    (by decide) (by decide) rfl (by decide) (by decide)
  exact ⟨h.1, h.2.2.2⟩

/-- C2 counterexample: the 401 responses for an expired bearer token and a
token with an invalid signature share the status code but differ in their
client-visible body (`Token expired` vs `Invalid token`), so the two causes
are distinguishable at the response level. -/
theorem auth_oracle_C2_counterexample :
    (user_context_dispatch
      (fun s => if s = "texp" then .expired else .invalid) (fun _ => none)
      0 300 ⟨some "Bearer texp", []⟩ ⟨200, "ok", []⟩).response.status =
      401 ∧
    (user_context_dispatch
      (fun s => if s = "texp" then .expired else .invalid) (fun _ => none)
      0 300 ⟨some "Bearer tbad", []⟩ ⟨200, "ok", []⟩).response.status =
      401 ∧
    (user_context_dispatch
      (fun s => if s = "texp" then .expired else .invalid) (fun _ => none)
      0 300 ⟨some "Bearer texp", []⟩ ⟨200, "ok", []⟩).response.body ≠
    (user_context_dispatch
      (fun s => if s = "texp" then .expired else .invalid) (fun _ => none)
      0 300 ⟨some "Bearer tbad", []⟩ ⟨200, "ok", []⟩).response.body :=
  ⟨by decide, by decide, by decide⟩

/-- C2 amended: token-based auth failures are uniformly status 401, but the
response body names the cause: an expired token answers
`(401, "Token expired")`, an invalid signature answers
`(401, "Invalid token")`; and a missing session is not a 401 at all — a
request with no token and no session cookie proceeds to the handler
unauthenticated. -/
theorem auth_401_per_cause_C2 (decode : String → DecodeResult)
    (store : String → Option String) (now refreshWindow : Int)
    (req : AuthRequest) (handlerResp : HttpResponse) :
    (∀ t, extract_token req = some t → t ≠ "" →
      decode t = DecodeResult.expired →
      (user_context_dispatch decode store now refreshWindow req
        handlerResp).response = ⟨401, "Token expired", []⟩) ∧
    (∀ t, extract_token req = some t → t ≠ "" →
      decode t = DecodeResult.invalid →
      (user_context_dispatch decode store now refreshWindow req
        handlerResp).response = ⟨401, "Invalid token", []⟩) ∧
    (extract_token req = none →
      cookie_get req.cookies "session_id" = none →
      user_context_dispatch decode store now refreshWindow req handlerResp =
        ⟨handlerResp, initialAuthState, true, false⟩) := by
  refine ⟨?_, ?_, ?_⟩
  · intro t ht hne hdec
    unfold user_context_dispatch
    rw [ht]
    simp [hne, token_phase, hdec]
  · intro t ht hne hdec
    unfold user_context_dispatch
    rw [ht]
    simp [hne, token_phase, hdec]
  · intro ht hc
    unfold user_context_dispatch
    rw [ht]
    simp [session_phase, hc, initialAuthState]

/-- Witness for C2 amended: concrete expired and invalid tokens produce the
two distinct 401 responses, and a bare request passes through. -/
theorem auth_401_per_cause_C2_witness :
    (user_context_dispatch (fun _ => .expired) (fun _ => none) 0 300
      ⟨some "Bearer t", []⟩ ⟨200, "ok", []⟩).response =
      ⟨401, "Token expired", []⟩ ∧
    (user_context_dispatch (fun _ => .invalid) (fun _ => none) 0 300
      ⟨some "Bearer t", []⟩ ⟨200, "ok", []⟩).response =
      ⟨401, "Invalid token", []⟩ ∧
    user_context_dispatch (fun _ => .invalid) (fun _ => none) 0 300
      ⟨none, []⟩ ⟨200, "ok", []⟩ =
      ⟨⟨200, "ok", []⟩, initialAuthState, true, false⟩ := by
  refine ⟨?_, ?_, ?_⟩
  · exact (auth_401_per_cause_C2 (fun _ => .expired) (fun _ => none) 0 300
      ⟨some "Bearer t", []⟩ ⟨200, "ok", []⟩).1 "t" (by decide) (by decide)
      rfl
  · exact (auth_401_per_cause_C2 (fun _ => .invalid) (fun _ => none) 0 300
      ⟨some "Bearer t", []⟩ ⟨200, "ok", []⟩).2.1 "t" (by decide)
      (by decide) rfl
  · exact (auth_401_per_cause_C2 (fun _ => .invalid) (fun _ => none) 0 300
      ⟨none, []⟩ ⟨200, "ok", []⟩).2.2 rfl rfl

/-! ### Theorems: C8 (Session Store) -/

/-- C8 counterexample: with the malformed (non-JSON) string left brace
stored under `session:s1`, `get_session` propagates the deserialization
error instead of returning absence. -/
theorem session_get_malformed_C8_counterexample :
    get_session (fun k => if k = "session:s1" then some "\x7b" else none)
      "s1" = .error "JSONDecodeError" ∧
    get_session (fun k => if k = "session:s1" then some "\x7b" else none)
      "s1" ≠ .ok none := by
  refine ⟨rfl, ?_⟩
  intro h
  rw [show get_session
    (fun k => if k = "session:s1" then some "\x7b" else none) "s1" =
    .error "JSONDecodeError" from rfl] at h
  exact Except.noConfusion h

/-- C8 amended: `get_session` returns the deserialized record when the
stored data is well-formed, and absence when the id is falsy, no record
exists, or the stored data is empty; but malformed non-empty stored data
raises a `JSONDecodeError` (the error propagates) rather than reading as
absence. -/
theorem session_store_get_C8 (store : String → Option String)
    (sid : String) :
    (sid = "" → get_session store sid = .ok none) ∧
    (store ("session:" ++ sid) = none →
      get_session store sid = .ok none) ∧
    (∀ s, store ("session:" ++ sid) = some s → s = "" →
      get_session store sid = .ok none) ∧
    (∀ s j, store ("session:" ++ sid) = some s → s ≠ "" →
      json_loads s = some j → sid ≠ "" →
      get_session store sid = .ok (some j)) ∧
    (∀ s, store ("session:" ++ sid) = some s → s ≠ "" →
      json_loads s = none → sid ≠ "" →
      get_session store sid = .error "JSONDecodeError") := by
  refine ⟨?_, ?_, ?_, ?_, ?_⟩
  · intro h; simp [get_session, h]
  · intro h
    unfold get_session
    by_cases hsid : sid = "" <;> simp [hsid, h]
  · intro s hs hemp
    unfold get_session
    by_cases hsid : sid = "" <;> simp [hsid, hs, hemp]
  · intro s j hs hne hj hsid
    simp [get_session, hsid, hs, hne, hj]
  · intro s hs hne hj hsid
    simp [get_session, hsid, hs, hne, hj]

/-- Witness for C8 amended: a missing id reads as absence, and a concrete
well-formed record is returned deserialized. -/
theorem session_store_get_C8_witness :
    get_session (fun _ => none) "s2" = .ok none ∧
    get_session
      (fun k => if k = "session:s2" then
        some "\x7b\"user_id\": 7, \"email\": \"a@x.com\"\x7d" else none)
      "s2" =
      .ok (some (.object (.cons "user_id" (.number 7 0)
        (.cons "email" (.string "a@x.com") .nil)))) := by
  constructor
  · exact (session_store_get_C8 (fun _ => none) "s2").2.1 rfl
  · exact (session_store_get_C8
      (fun k => if k = "session:s2" then
        some "\x7b\"user_id\": 7, \"email\": \"a@x.com\"\x7d" else none)
      "s2").2.2.2.1 "\x7b\"user_id\": 7, \"email\": \"a@x.com\"\x7d"
      (.object (.cons "user_id" (.number 7 0)
        (.cons "email" (.string "a@x.com") .nil)))
      rfl (by decide) (by decide) (by decide)

/-! ### Theorems: C9 and C10 (auth service) -/

/-- C9: a stored user with no password hash (federation-only account) never
authenticates by password, whatever the supplied password; and any user
`authenticate_user` returns has a present password hash that the supplied
password verifies against. -/
theorem password_auth_requires_hash_C9 (verify : String → String → Bool)
    (db : List DBUser) (email password : String) :
    (∀ u, db.find? (fun v => v.email == email) = some u →
      u.password_hash = none →
      authenticate_user verify db email password = none) ∧
    (∀ u, authenticate_user verify db email password = some u →
      ∃ h, u.password_hash = some h ∧ verify password h = true) := by
  constructor
  · intro u hf hn
    simp [authenticate_user, hf, hn]
  · intro u hu
    unfold authenticate_user at hu
    cases hf : db.find? (fun v => v.email == email) with
    | none => simp only [hf] at hu; exact Option.noConfusion hu
    | some w =>
        simp only [hf] at hu
        cases hph : w.password_hash with
        | none => simp only [hph] at hu; exact Option.noConfusion hu
        | some h =>
            simp only [hph] at hu
            by_cases hv : verify password h
            · rw [if_pos hv] at hu
              cases hu
              exact ⟨h, hph, hv⟩
            · rw [if_neg hv] at hu
              exact Option.noConfusion hu

/-- Witness for C9: against a store with a federation-only user (no hash)
and a password user, password login fails for the former and succeeds for
the latter exactly when the hash verifies. -/
theorem password_auth_requires_hash_C9_witness :
    authenticate_user (fun p h => p == h)
      [⟨1, "a@x.com", none⟩, ⟨2, "b@x.com", some "pw"⟩]
      "a@x.com" "anything" = none ∧
    ∃ h, (⟨2, "b@x.com", some "pw"⟩ : DBUser).password_hash = some h ∧
      (fun (p hh : String) => p == hh) "pw" h = true := by
  constructor
  · exact (password_auth_requires_hash_C9 (fun p h => p == h)
      [⟨1, "a@x.com", none⟩, ⟨2, "b@x.com", some "pw"⟩]
      "a@x.com" "anything").1 ⟨1, "a@x.com", none⟩ (by decide) rfl
  · exact (password_auth_requires_hash_C9 (fun p h => p == h)
      [⟨1, "a@x.com", none⟩, ⟨2, "b@x.com", some "pw"⟩]
      "b@x.com" "pw").2 ⟨2, "b@x.com", some "pw"⟩ (by decide)

/-- C10: a federated login with no (provider, subject) account but whose
provider-reported (truthy, hence non-empty) email matches an existing user
links a new account to that user and returns it without touching the user
list; and a brand-new user is created (the user list grows) only when
neither the (provider, subject) pair nor the (truthy) email matched an
existing record. -/
theorem social_login_linking_C10 (db : SocialDB) (provider sub : String)
    (email : Option String) :
    (∀ e u, email = some e → e ≠ "" →
      db.accounts.find?
        (fun a => a.provider == provider && a.sub == sub) = none →
      db.users.find? (fun v => v.email == e) = some u →
      get_or_create_user_via_social db provider sub email =
        .ok (u, { db with accounts :=
          db.accounts ++ [⟨u.id, provider, sub, e⟩] })) ∧
    (∀ u db2,
      get_or_create_user_via_social db provider sub email = .ok (u, db2) →
      db2.users ≠ db.users →
      db.accounts.find?
        (fun a => a.provider == provider && a.sub == sub) = none ∧
      ∃ e, email = some e ∧ e ≠ "" ∧
        db.users.find? (fun v => v.email == e) = none ∧
        u = ⟨db.next_user_id, e, none⟩ ∧
        db2.users = db.users ++ [u]) := by
  constructor
  · intro e u he hne hacc huser
    simp [get_or_create_user_via_social, he, hne, hacc, huser]
  · intro u db2 hok hgrow
    unfold get_or_create_user_via_social at hok
    cases hacc : db.accounts.find?
        (fun a => a.provider == provider && a.sub == sub) with
    | some acc =>
        simp only [hacc] at hok
        cases hu : db.users.find? (fun v => v.id == acc.user_id) with
        | none => simp only [hu] at hok; exact Except.noConfusion hok
        | some w =>
            simp only [hu] at hok
            rcases hok with ⟨rfl, rfl⟩
            exact absurd rfl hgrow
    | none =>
        simp only [hacc] at hok
        cases email with
        | none => exact Except.noConfusion hok
        | some e =>
            dsimp only [] at hok
            by_cases hne : e = ""
            · rw [if_pos hne] at hok
              exact Except.noConfusion hok
            · rw [if_neg hne] at hok
              cases hus : db.users.find? (fun v => v.email == e) with
              | some w =>
                  simp only [hus] at hok
                  rcases hok with ⟨rfl, rfl⟩
                  exact absurd rfl hgrow
              | none =>
                  simp only [hus] at hok
                  rcases hok with ⟨rfl, rfl⟩
                  exact ⟨rfl, e, rfl, hne, hus, rfl, rfl⟩

/-- Witness for C10: with one existing user `a@x.com` and no accounts, a
google login reporting that email links to the existing user, and one
reporting a fresh email creates user 2. -/
theorem social_login_linking_C10_witness :
    get_or_create_user_via_social
      ⟨[⟨1, "a@x.com", some "h"⟩], [], 2⟩ "google" "g1"
      (some "a@x.com") =
      .ok (⟨1, "a@x.com", some "h"⟩,
        ⟨[⟨1, "a@x.com", some "h"⟩], [⟨1, "google", "g1", "a@x.com"⟩],
          2⟩) ∧
    ((get_or_create_user_via_social
      ⟨[⟨1, "a@x.com", some "h"⟩], [], 2⟩ "google" "g2"
      (some "new@x.com") =
      .ok (⟨2, "new@x.com", none⟩,
        ⟨[⟨1, "a@x.com", some "h"⟩, ⟨2, "new@x.com", none⟩],
          [⟨2, "google", "g2", "new@x.com"⟩], 3⟩)) ∧
      ∃ e, (some "new@x.com" : Option String) = some e ∧ e ≠ "" ∧
        ([⟨1, "a@x.com", some "h"⟩] : List DBUser).find?
          (fun v => v.email == e) = none ∧
        (⟨2, "new@x.com", none⟩ : DBUser) = ⟨2, e, none⟩ ∧
        ([⟨1, "a@x.com", some "h"⟩, ⟨2, "new@x.com", none⟩] :
          List DBUser) = [⟨1, "a@x.com", some "h"⟩] ++
            [⟨2, "new@x.com", none⟩]) := by
  constructor
  · exact (social_login_linking_C10 ⟨[⟨1, "a@x.com", some "h"⟩], [], 2⟩
      "google" "g1" (some "a@x.com")).1 "a@x.com" ⟨1, "a@x.com", some "h"⟩
      rfl (by decide) (by decide) (by decide)
  · refine ⟨rfl, ?_⟩
    have h := (social_login_linking_C10 ⟨[⟨1, "a@x.com", some "h"⟩], [], 2⟩
      "google" "g2" (some "new@x.com")).2 ⟨2, "new@x.com", none⟩
      ⟨[⟨1, "a@x.com", some "h"⟩, ⟨2, "new@x.com", none⟩],
        [⟨2, "google", "g2", "new@x.com"⟩], 3⟩ rfl (by decide)
    exact h.2

end Backend
